import Mathlib

/-!
Verification of the transcript-summarizer app (src/app.py) against its
specification. The Python code is shallowly embedded below: Python strings
are Lean `String`s (sequences of unicode code points), Python `None` and
fallible results become `Option`/`Except`, and the effectful retry loop of
`call_gemini` is modelled as a pure function that also returns the trace of
its observable effects (remote invocations, `st.error` messages, sleeps).
-/

/-- Python `str.find(c)`: index of the first occurrence of `c`, or `-1`. -/
def pyFind (s : String) (c : Char) : Int :=
  match s.toList.findIdx? (fun x => x == c) with
  | some i => (i : Int)
  | none => -1

/-- Python `str.rfind(c)`: index of the last occurrence of `c`, or `-1`. -/
def pyRFind (s : String) (c : Char) : Int :=
  match s.toList.reverse.findIdx? (fun x => x == c) with
  | some i => ((s.toList.length - 1 - i : Nat) : Int)
  | none => -1

/-- Clamp one endpoint of a Python slice `s[a:b]` to `0 .. len`
(negative indices count from the end, as in Python). -/
def pySliceIdx (len : Nat) (i : Int) : Nat :=
  if i < 0 then (i + len).toNat else min i.toNat len

/-- Python slice `s[a:b]`. -/
def pySlice (s : String) (a b : Int) : String :=
  let lo := pySliceIdx s.toList.length a
  let hi := pySliceIdx s.toList.length b
  String.mk ((s.toList.drop lo).take (hi - lo))

/-- Does `needle` occur as a contiguous run inside `hay`? -/
def listInfix : List Char → List Char → Bool
  | needle, [] => needle.isEmpty
  | needle, c :: t => needle.isPrefixOf (c :: t) || listInfix needle t

/-- Python `needle in hay` for strings (substring test). -/
def strContains (hay needle : String) : Bool :=
  listInfix needle.toList hay.toList

/-- Python `str.lower()` (character-wise lowering; ASCII-faithful). -/
def pyLower (s : String) : String :=
  String.mk (s.toList.map Char.toLower)

/-- Embedding of `clean_json_response` (src/app.py lines 96-107):
`json_start = response_text.find('{')`, `json_end = response_text.rfind('}') + 1`,
slice if `json_start != -1 and json_end != -1`, else return the input. -/
def clean_json_response (response_text : String) : String :=
  let json_start : Int := pyFind response_text '\x7b'
  let json_end : Int := pyRFind response_text '\x7d' + 1
  if json_start ≠ -1 ∧ json_end ≠ -1 then
    pySlice response_text json_start json_end
  else
    response_text

/-- Outcome of one `model.generate_content(full_prompt)` invocation:
either a response (its `.text`) or a raised exception (its message `str(e)`). -/
inductive GenResult where
  | success (text : String)
  | failure (msg : String)
deriving DecidableEq

/-- Observable effects of `call_gemini`: a remote invocation carrying the
full prompt string sent, an `st.error` message, or a `time.sleep`.
(The source never sleeps; the constructor exists so that absence of sleeps
is expressible.) -/
inductive Event where
  | invoke (fullPrompt : String)
  | errorMsg (msg : String)
  | sleep (seconds : Nat)
deriving DecidableEq

/-- The fixed string interpolated by
`f"{prompt}\n\nHere is the text to process:\n\n{data_to_process}"`. -/
def full_prompt_of (prompt data_to_process : String) : String :=
  prompt ++ "\n\nHere is the text to process:\n\n" ++ data_to_process

/-- Does this generation outcome model an exception `e` with
`"quota" in str(e).lower()`? -/
def quotaFailB : GenResult → Bool
  | GenResult.success _ => false
  | GenResult.failure m => strContains (pyLower m) "quota"

/-- The retry loop of `call_gemini` (src/app.py lines 118-128).
`gen attempt fp` is the oracle for what `model.generate_content(fp)` does on
the given (0-based) attempt; `fuel` is the number of loop iterations left
(`retry_count - attempt`). Returns the function result and the effect trace. -/
def geminiAttempts (gen : Nat → String → GenResult) (fp : String) (rc : Nat) :
    Nat → Nat → Option String × List Event
  | _, 0 => (none, [Event.errorMsg "Failed to get a response from the API after multiple attempts."])
  | attempt, fuel + 1 =>
    match gen attempt fp with
    | GenResult.success t => (some t, [Event.invoke fp])
    | GenResult.failure m =>
      let e1 := Event.errorMsg ("API Error (Attempt " ++ toString (attempt + 1) ++ "/" ++ toString rc ++ "): " ++ m)
      if strContains (pyLower m) "quota" then
        (none, [Event.invoke fp, e1,
                Event.errorMsg "Quota exceeded. Please check your Google AI billing."])
      else
        let r := geminiAttempts gen fp rc (attempt + 1) fuel
        (r.1, Event.invoke fp :: e1 :: r.2)

/-- Embedding of `call_gemini` (src/app.py lines 109-128). The global
`model` being configured (`model is not None`) is the `modelConfigured`
flag; `gen` is the oracle for the remote call. Returns the Python return
value (`None` becomes `none`; returned strings become `some`) together with
the trace of observable effects. -/
def call_gemini (gen : Nat → String → GenResult) (prompt data_to_process : String)
    (modelConfigured : Bool) (retry_count : Nat) : Option String × List Event :=
  if modelConfigured = false then
    (some "Error: Google Generative AI model is not configured.", [])
  else
    geminiAttempts gen (full_prompt_of prompt data_to_process) retry_count 0 retry_count

/-- Number of remote invocations recorded in a trace. -/
def numInvokes : List Event → Nat
  | [] => 0
  | Event.invoke _ :: t => numInvokes t + 1
  | _ :: t => numInvokes t

/-- Number of sleep effects recorded in a trace. -/
def numSleeps : List Event → Nat
  | [] => 0
  | Event.sleep _ :: t => numSleeps t + 1
  | _ :: t => numSleeps t

/-- Python exceptions that the embedded fragments of `build_report_from_json`
can raise (uncaught by the source, which only catches `json.JSONDecodeError`). -/
inductive PyErr where
  | typeError
  | attributeError
  | keyError
deriving DecidableEq

/-- JSON values as produced by `json.loads`. Numbers are modelled as
integers (no claim touches numerics; float formatting is out of scope);
objects are association lists standing for dicts (keys listed once). -/
inductive JValue where
  | null
  | bool (b : Bool)
  | num (n : Int)
  | str (s : String)
  | arr (xs : List JValue)
  | obj (kvs : List (String × JValue))

/-- Does the dict behind `kvs` have key `k`? -/
def hasKey (k : String) (kvs : List (String × JValue)) : Bool :=
  kvs.any (fun p => p.1 == k)

/-- Python `k in data` on a `json.loads` result: key test on dicts, element
test on lists, substring test on strings, `TypeError` otherwise. -/
def pyContains (k : String) : JValue → Except PyErr Bool
  | JValue.obj kvs => Except.ok (hasKey k kvs)
  | JValue.arr xs =>
    Except.ok (xs.any (fun v => match v with | JValue.str s => s == k | _ => false))
  | JValue.str s => Except.ok (strContains s k)
  | _ => Except.error PyErr.typeError

/-- Python `data[k]` with a string key: dict lookup (`KeyError` if absent),
`TypeError` on any non-dict. -/
def pyGetItem (k : String) : JValue → Except PyErr JValue
  | JValue.obj kvs =>
    match kvs.lookup k with
    | some v => Except.ok v
    | none => Except.error PyErr.keyError
  | _ => Except.error PyErr.typeError

/-- Python `data.get(k, default)`: only dicts have `.get`
(`AttributeError` otherwise). -/
def pyGet (k : String) (default : JValue) : JValue → Except PyErr JValue
  | JValue.obj kvs => Except.ok ((kvs.lookup k).getD default)
  | _ => Except.error PyErr.attributeError

/-- Python `for item in v`: lists yield elements, strings yield 1-character
strings, dicts yield their keys, anything else raises `TypeError`. -/
def pyIter : JValue → Except PyErr (List JValue)
  | JValue.arr xs => Except.ok xs
  | JValue.str s => Except.ok (s.toList.map (fun c => JValue.str (String.mk [c])))
  | JValue.obj kvs => Except.ok (kvs.map (fun p => JValue.str p.1))
  | _ => Except.error PyErr.typeError

mutual
/-- Python `repr` of a `json.loads` value (string escaping inside reprs is
not modelled beyond quoting; no claim depends on it). -/
def pyRepr : JValue → String
  | JValue.null => "None"
  | JValue.bool true => "True"
  | JValue.bool false => "False"
  | JValue.num n => toString n
  | JValue.str s => "\x27" ++ s ++ "\x27"
  | JValue.arr xs => "[" ++ String.intercalate ", " (pyReprList xs) ++ "]"
  | JValue.obj kvs => "\x7b" ++ String.intercalate ", " (pyReprPairs kvs) ++ "\x7d"

/-- `pyRepr` mapped over a list. -/
def pyReprList : List JValue → List String
  | [] => []
  | v :: vs => pyRepr v :: pyReprList vs

/-- `pyRepr` of the entries of a dict. -/
def pyReprPairs : List (String × JValue) → List String
  | [] => []
  | p :: ps => ("\x27" ++ p.1 ++ "\x27: " ++ pyRepr p.2) :: pyReprPairs ps
end

/-- Python `str(v)` (as used by the f-string `f"*{item}*"`). -/
def pyStr : JValue → String
  | JValue.str s => s
  | v => pyRepr v

/-- Are all entries strings?  Returns them when so (the precondition of
`str.join`, which raises `TypeError` on any non-string element). -/
def allStrings : List JValue → Option (List String)
  | [] => some []
  | JValue.str s :: rest => (allStrings rest).map (fun sl => s :: sl)
  | _ => none

/-- Python `sep.join(l)` over the accumulated `report_markdown` list. -/
def pyJoin (sep : String) (l : List JValue) : Except PyErr String :=
  match allStrings l with
  | some sl => Except.ok (String.intercalate sep sl)
  | none => Except.error PyErr.typeError

/-- The `executive_summary` block of `build_report_from_json`
(src/app.py lines 143-146): heading, the raw dict value, then `"\n"`. -/
def execSection (data : JValue) : Except PyErr (List JValue) :=
  match pyContains "executive_summary" data with
  | Except.error e => Except.error e
  | Except.ok false => Except.ok []
  | Except.ok true =>
    match pyGetItem "executive_summary" data with
    | Except.error e => Except.error e
    | Except.ok v => Except.ok [JValue.str "### Executive Summary", v, JValue.str "\n"]

/-- One bullet-list block of `build_report_from_json` (the three blocks at
src/app.py lines 148-164 differ only in key and heading): heading, one
`f"*{item}*"` line per element of `data.get(key, [])`, then `"\n"`. -/
def listSection (data : JValue) (key heading : String) : Except PyErr (List JValue) :=
  match pyContains key data with
  | Except.error e => Except.error e
  | Except.ok false => Except.ok []
  | Except.ok true =>
    match pyGet key (JValue.arr []) data with
    | Except.error e => Except.error e
    | Except.ok v =>
      match pyIter v with
      | Except.error e => Except.error e
      | Except.ok items =>
        Except.ok ([JValue.str heading]
          ++ items.map (fun it => JValue.str ("*" ++ pyStr it ++ "*"))
          ++ [JValue.str "\n"])

/-- Embedding of `build_report_from_json` (src/app.py lines 130-166).
`parse` models `json.loads` (`none` = `json.JSONDecodeError`, in which case
the source returns its input unchanged).  A `Except.error` result models an
exception the source does not catch (e.g. `TypeError` from `"\n".join`). -/
def build_report_from_json (parse : String → Option JValue)
    (report_json_text : String) : Except PyErr String :=
  match parse report_json_text with
  | none => Except.ok report_json_text
  | some data =>
    (execSection data).bind fun b1 =>
    (listSection data "key_metrics" "**Key Metrics & Guidance**").bind fun b2 =>
    (listSection data "strategic_developments" "**Strategic Developments**").bind fun b3 =>
    (listSection data "risks_and_red_flags" "**Risks & Red Flags**").bind fun b4 =>
    pyJoin "\n" (b1 ++ b2 ++ b3 ++ b4)

/-- `CHUNK_AGENT_PROMPT` (src/app.py lines 16-35; defined but never used by `main`). -/
def CHUNK_AGENT_PROMPT : String :=
  "\nYou are a text-processing specialist. Your only job is to parse an earnings call transcript.\n"
  ++ "You will be given the full text of an earnings call.\n"
  ++ "\nYour task is to identify and segment the text into its two main parts:\n"
  ++ "\nThe \"Prepared Remarks\" (the opening speech by management).\n"
  ++ "The \"Questions and Answers\" (the Q&A session with analysts).\n"
  ++ "You must return the output as a single JSON object.\n"
  ++ "The keys must be prepared_remarks and questions_and_answers.\n"
  ++ "The values must be the complete, verbatim text of those sections.\n"
  ++ "Do not include any other sections (like the operator introduction or legal disclaimers).\n"
  ++ "Do not add any commentary. Your only output must be the valid JSON.\n"
  ++ "\nExample Output Format:\n"
  ++ "\x7b\n"
  ++ "  \"prepared_remarks\": \"Thank you, operator. Good afternoon, everyone... [full text]...\",\n"
  ++ "  \"questions_and_answers\": \"Thank you. We will now begin the question-and-answer session... [full text]...\"\n"
  ++ "\x7d\n"

/-- `ANALYZER_AGENT_PROMPT` (src/app.py lines 37-63). -/
def ANALYZER_AGENT_PROMPT : String :=
  "\nYour only job and only output must be a single, valid JSON object. Do not add any text, commentary, or explanation before or after the JSON.\n"
  ++ "\nYour task is to analyze a chunk of text from a financial report based on the following rules:\n"
  ++ "\nYou will act as a senior financial analyst.\n"
  ++ "The JSON you return must have these exact keys: key_numbers, strategic_updates, risk_factors, and red_flags.\n"
  ++ "The value for each key must be a list of strings (the bullet points you extract).\n"
  ++ "\nExtract:\n"
  ++ "key_numbers: Specific financial figures, percentages, guidance, or hard numbers.\n"
  ++ "strategic_updates: New products, M&A activity, market expansion, or changes in business focus.\n"
  ++ "risk_factors: New or newly emphasized risks.\n"
  ++ "red_flags: Any language that seems unusual, evasive, or overly promotional.\n"
  ++ "Be concise. Stick only to what the text explicitly states. Ignore boilerplate.\n"
  ++ "If you find no information for a key, you must return an empty list [].\n"
  ++ "\nExample Output (This is the only format you will use):\n"
  ++ "\x7b\n"
  ++ "  \"key_numbers\": [\n"
  ++ "    \"Revenue increased 15% to $10M\"\n"
  ++ "  ],\n"
  ++ "  \"strategic_updates\": [],\n"
  ++ "  \"risk_factors\": [],\n"
  ++ "  \"red_flags\": []\n"
  ++ "\x7d\n"

/-- `SYNTHESIZER_AGENT_PROMPT` (src/app.py lines 65-94). -/
def SYNTHESIZER_AGENT_PROMPT : String :=
  "\nYou are an executive editor. Your *only* job is to synthesize a JSON object of analyst notes into a *new, final JSON object* that will be used to build a report.\n"
  ++ "\n1.  You will be given a JSON object of extracted facts.\n"
  ++ "2.  Your task is to review all the notes and synthesize the information.\n"
  ++ "3.  You **must** return a single, valid JSON object with the following keys:\n"
  ++ "    * `executive_summary`: A 2-3 sentence overview.\n"
  ++ "    * `key_metrics`: A list of strings (bullets) for the most critical numbers.\n"
  ++ "    * `strategic_developments`: A list of strings (bullets) for key updates.\n"
  ++ "    * `risks_and_red_flags`: A list of strings (bullets) for significant risks.\n"
  ++ "4.  **CRITICAL:** When you write the text for the lists, ensure all spacing is correct (e.g., \"$56 billion to $59 billion\", not \"$56billionto\").\n"
  ++ "5.  Do not add any commentary. Your *only* output is the final JSON.\n"
  ++ "\n**Example Output Format:**\n"
  ++ "```json\n"
  ++ "\x7b\n"
  ++ "  \"executive_summary\": \"The company reported strong Q3 growth with revenue up 26%, driven by...\",\n"
  ++ "  \"key_metrics\": [\n"
  ++ "    \"Q3 Total Revenue: $51.2 billion, up 26% Y/Y.\",\n"
  ++ "    \"Q4 Revenue Guidance: $56 billion to $59 billion.\"\n"
  ++ "  ],\n"
  ++ "  \"strategic_developments\": [\n"
  ++ "    \"Strategic priority is establishing the company as the leading frontier AI lab.\"\n"
  ++ "  ],\n"
  ++ "  \"risks_and_red_flags\": [\n"
  ++ "    \"Regulatory Headwinds (Europe): Cannot rule out...\",\n"
  ++ "    \"Legal Exposure: Youth-related trials...\"\n"
  ++ "  ]\n"
  ++ "\x7d\n"

/-- Python truthiness of an `Optional[str]` (`if not x` in `main`):
falsy when `None` or the empty string. -/
def pyFalsy (r : Option String) : Bool :=
  match r with
  | none => true
  | some t => t == ""

/-- Observable outcome of one button-triggered run of `main`
(src/app.py lines 182-244): the `(prompt, data)` argument pairs of the
`call_gemini` stage calls in order, the `st.error` messages emitted by
`main` itself, the value of `final_report_markdown`, and whether the final
display step (`st.markdown` of the report) was reached. -/
structure PipelineResult where
  stageCalls : List (String × String)
  errors : List String
  report : Option String
  displayed : Bool
deriving DecidableEq

/-- Embedding of the post-click pipeline of `main` (src/app.py lines
184-244). `parse` models `json.loads`; `gen` is the oracle for
`model.generate_content`; `pdf` is the outcome of the PDF text extraction
(`Except.error e` when `pdfplumber` raises with message `e`).  `st.stop`
is modelled by returning early; purely visual calls (`st.info`,
`st.subheader`, `st.json`, `st.text`, spinners/expanders) are not recorded.
An `Except.error` result models an exception `main` does not catch
(only `build_report_from_json` can raise one in this model). -/
def runPipeline (parse : String → Option JValue) (gen : Nat → String → GenResult)
    (modelConfigured : Bool) (pdf : Except String String) : Except PyErr PipelineResult :=
  match modelConfigured with
  | false =>
    Except.ok ⟨[], ["Model not configured. Check API key in Streamlit Secrets."], none, false⟩
  | true =>
    match pdf with
    | Except.error e => Except.ok ⟨[], ["Error reading PDF: " ++ e], none, false⟩
    | Except.ok full_text =>
      let r1 := call_gemini gen ANALYZER_AGENT_PROMPT full_text true 2
      if pyFalsy r1.1 then
        Except.ok ⟨[(ANALYZER_AGENT_PROMPT, full_text)], ["Analyzer Agent failed."], none, false⟩
      else
        let analyzer_json_text := clean_json_response (r1.1.getD "")
        if analyzer_json_text == "" then
          Except.ok ⟨[(ANALYZER_AGENT_PROMPT, full_text)],
                     ["Could not generate the final report."], none, false⟩
        else
          let r2 := call_gemini gen SYNTHESIZER_AGENT_PROMPT analyzer_json_text true 2
          if pyFalsy r2.1 then
            Except.ok ⟨[(ANALYZER_AGENT_PROMPT, full_text),
                        (SYNTHESIZER_AGENT_PROMPT, analyzer_json_text)],
                       ["Synthesizer Agent failed."], none, false⟩
          else
            let final_json_text := clean_json_response (r2.1.getD "")
            if final_json_text == "" then
              Except.ok ⟨[(ANALYZER_AGENT_PROMPT, full_text),
                          (SYNTHESIZER_AGENT_PROMPT, analyzer_json_text)],
                         ["Could not generate the final report."], none, false⟩
            else
              match build_report_from_json parse final_json_text with
              | Except.error err => Except.error err
              | Except.ok final_report_markdown =>
                if final_report_markdown == "" then
                  Except.ok ⟨[(ANALYZER_AGENT_PROMPT, full_text),
                              (SYNTHESIZER_AGENT_PROMPT, analyzer_json_text)],
                             ["Could not generate the final report."],
                             some final_report_markdown, false⟩
                else
                  Except.ok ⟨[(ANALYZER_AGENT_PROMPT, full_text),
                              (SYNTHESIZER_AGENT_PROMPT, analyzer_json_text)],
                             [], some final_report_markdown, true⟩

/-- An oracle whose every invocation raises a quota-mentioning error. -/
def genQuota : Nat → String → GenResult := fun _ _ => GenResult.failure "Quota exceeded for metric"

/-- An oracle whose every invocation raises a non-quota error. -/
def genFailTwice : Nat → String → GenResult := fun _ _ => GenResult.failure "boom"

/-- An oracle that always answers with the fixed text `"ok"`. -/
def genOk : Nat → String → GenResult := fun _ _ => GenResult.success "ok"

/-- An oracle that answers only prompts containing the marker `"FTDATA"`
(used to let the analyzer stage succeed and the synthesizer stage fail). -/
def genAnalyzerOnly : Nat → String → GenResult := fun _ fp =>
  if strContains fp "FTDATA" then GenResult.success "x\x7ba\x7dy" else GenResult.failure "boom"

/-- A `json.loads` model on which every string fails to parse. -/
def parseNone : String → Option JValue := fun _ => none

/-- The association list of the two-key object produced by `parseTwoKeys`. -/
def kvsTwoKeys : List (String × JValue) :=
  [("executive_summary", JValue.str "S"), ("key_metrics", JValue.arr [JValue.str "a"])]

/-- A `json.loads` model mapping `"\x7ba\x7d"` to a two-key object
(used to exercise `build_report_from_json` on a concrete dict). -/
def parseTwoKeys : String → Option JValue := fun s =>
  if s == "\x7ba\x7d" then some (JValue.obj kvsTwoKeys) else none


/-- The retry loop makes at most `fuel` remote invocations. -/
theorem geminiAttempts_invoke_bound (gen : Nat → String → GenResult) (fp : String) (rc : Nat) :
    ∀ fuel a, numInvokes (geminiAttempts gen fp rc a fuel).2 ≤ fuel := by
  intro fuel
  induction fuel with
  | zero => intro a; simp [geminiAttempts, numInvokes]
  | succ n ih =>
    intro a
    simp only [geminiAttempts]
    cases hga : gen a fp with
    | success t => simp [numInvokes]
    | failure m =>
      by_cases hq : strContains (pyLower m) "quota"
      · simp [hq, numInvokes]
      · simp only [hq, Bool.false_eq_true, if_false, numInvokes]
        have := ih (a + 1)
        omega

/-- If the `k`-th attempt made by the retry loop raises a quota error, the
loop stops right after it and the result is `none`. -/
theorem geminiAttempts_quota_stop (gen : Nat → String → GenResult) (fp : String) (rc : Nat) :
    ∀ fuel a k, k < numInvokes (geminiAttempts gen fp rc a fuel).2 →
      quotaFailB (gen (a + k) fp) = true →
      numInvokes (geminiAttempts gen fp rc a fuel).2 = k + 1 ∧
      (geminiAttempts gen fp rc a fuel).1 = none := by
  intro fuel
  induction fuel with
  | zero =>
    intro a k hk _
    simp [geminiAttempts, numInvokes] at hk
  | succ n ih =>
    intro a k hk hq
    cases hga : gen a fp with
    | success t =>
      simp only [geminiAttempts, hga, numInvokes] at hk
      have hk0 : k = 0 := by omega
      rw [hk0, Nat.add_zero, hga] at hq
      simp [quotaFailB] at hq
    | failure m =>
      by_cases hqm : strContains (pyLower m) "quota"
      · simp only [geminiAttempts, hga, hqm, if_true, numInvokes] at hk ⊢
        exact ⟨by omega, trivial⟩
      · simp only [geminiAttempts, hga, hqm, Bool.false_eq_true, if_false, numInvokes] at hk ⊢
        cases k with
        | zero =>
          rw [Nat.add_zero, hga] at hq
          simp [quotaFailB, hqm] at hq
        | succ j =>
          have hj : j < numInvokes (geminiAttempts gen fp rc (a + 1) n).2 := by omega
          have hq' : quotaFailB (gen (a + 1 + j) fp) = true := by
            have harith : a + 1 + j = a + (j + 1) := by omega
            rw [harith]; exact hq
          have hrec := ih (a + 1) j hj hq'
          exact ⟨by omega, hrec.2⟩

/-- The retry loop either returns `none` or the text of a successful attempt. -/
theorem geminiAttempts_result_cases (gen : Nat → String → GenResult) (fp : String) (rc : Nat) :
    ∀ fuel a, (geminiAttempts gen fp rc a fuel).1 = none ∨
      ∃ k t, k < fuel ∧ gen (a + k) fp = GenResult.success t ∧
        (geminiAttempts gen fp rc a fuel).1 = some t := by
  intro fuel
  induction fuel with
  | zero => intro a; left; rfl
  | succ n ih =>
    intro a
    cases hga : gen a fp with
    | success t =>
      right
      exact ⟨0, t, Nat.succ_pos n, by rw [Nat.add_zero]; exact hga,
        by simp [geminiAttempts, hga]⟩
    | failure m =>
      by_cases hqm : strContains (pyLower m) "quota"
      · left; simp [geminiAttempts, hga, hqm]
      · rcases ih (a + 1) with hnone | ⟨k, t, hk, hgt, hres⟩
        · left; simp [geminiAttempts, hga, hqm, hnone]
        · right
          refine ⟨k + 1, t, by omega, ?_, ?_⟩
          · have harith : a + (k + 1) = a + 1 + k := by omega
            rw [harith]; exact hgt
          · simp [geminiAttempts, hga, hqm, hres]

/-- Every invocation recorded by the retry loop carries the full prompt. -/
theorem geminiAttempts_invoke_prompt (gen : Nat → String → GenResult) (fp : String) (rc : Nat) :
    ∀ fuel a ev, ev ∈ (geminiAttempts gen fp rc a fuel).2 →
      ∀ s, ev = Event.invoke s → s = fp := by
  intro fuel
  induction fuel with
  | zero =>
    intro a ev hev s hs
    simp [geminiAttempts] at hev
    rw [hev] at hs
    cases hs
  | succ n ih =>
    intro a ev hev s hs
    cases hga : gen a fp with
    | success t =>
      simp [geminiAttempts, hga] at hev
      rw [hev] at hs
      cases hs
      rfl
    | failure m =>
      by_cases hqm : strContains (pyLower m) "quota"
      · simp [geminiAttempts, hga, hqm] at hev
        rcases hev with h | h | h <;> rw [h] at hs <;> cases hs
        rfl
      · simp only [geminiAttempts, hga, hqm, Bool.false_eq_true, if_false,
          List.mem_cons] at hev
        rcases hev with h | h | h
        · rw [h] at hs; cases hs; rfl
        · rw [h] at hs; cases hs
        · exact ih (a + 1) ev h s hs

/-- The retry loop never records a sleep effect. -/
theorem geminiAttempts_no_sleep (gen : Nat → String → GenResult) (fp : String) (rc : Nat) :
    ∀ fuel a, numSleeps (geminiAttempts gen fp rc a fuel).2 = 0 := by
  intro fuel
  induction fuel with
  | zero => intro a; rfl
  | succ n ih =>
    intro a
    cases hga : gen a fp with
    | success t => simp [geminiAttempts, hga, numSleeps]
    | failure m =>
      by_cases hqm : strContains (pyLower m) "quota"
      · simp [geminiAttempts, hga, hqm, numSleeps]
      · simp [geminiAttempts, hga, hqm, numSleeps, ih (a + 1)]

/-- C1 (code bug): the spec says `clean_json_response` returns its input
unchanged when either brace is absent, but on `"\x7babc"` (a `'\x7b'` with no
`'\x7d'`) the code returns the empty string: `rfind` yields `-1`, the `+ 1`
makes `json_end = 0`, the dead guard `json_end != -1` passes, and the slice
`text[start:0]` is empty. -/
theorem clean_json_response_missing_close_brace_bug :
    clean_json_response "\x7babc" = "" ∧ ("\x7babc" : String) ≠ "" := by
  constructor
  · rfl
  · decide

/-- C8: for every input string, the result of `clean_json_response` is a
contiguous substring of the input (a take of a drop of its characters). -/
theorem clean_json_response_substring (s : String) :
    ∃ lo n, clean_json_response s = String.mk ((s.toList.drop lo).take n) := by
  simp only [clean_json_response, pySlice]
  split
  · exact ⟨_, _, rfl⟩
  · refine ⟨0, s.toList.length, ?_⟩
    simp only [List.drop_zero, List.take_length]
    rfl

/-- C2: for every prompt, data string and retry count `N`, `call_gemini`
invokes the remote `generate_content` at most `N` times, and if the `k`-th
invocation raises an error whose message contains `"quota"`
(case-insensitively), no further invocation is made and the result is `None`. -/
theorem call_gemini_retry_bound_and_quota_stop (gen : Nat → String → GenResult)
    (prompt data_to_process : String) (modelConfigured : Bool) (retry_count : Nat) :
    numInvokes (call_gemini gen prompt data_to_process modelConfigured retry_count).2 ≤ retry_count ∧
    ∀ k, k < numInvokes (call_gemini gen prompt data_to_process modelConfigured retry_count).2 →
      quotaFailB (gen k (full_prompt_of prompt data_to_process)) = true →
      numInvokes (call_gemini gen prompt data_to_process modelConfigured retry_count).2 = k + 1 ∧
      (call_gemini gen prompt data_to_process modelConfigured retry_count).1 = none := by
  cases modelConfigured with
  | false =>
    constructor
    · simp [call_gemini, numInvokes]
    · intro k hk
      simp [call_gemini, numInvokes] at hk
  | true =>
    constructor
    · simpa [call_gemini] using
        geminiAttempts_invoke_bound gen (full_prompt_of prompt data_to_process)
          retry_count retry_count 0
    · intro k hk hq
      have hres := geminiAttempts_quota_stop gen (full_prompt_of prompt data_to_process)
        retry_count retry_count 0 k (by simpa [call_gemini] using hk)
        (by simpa using hq)
      simpa [call_gemini] using hres

/-- C2 witness: a first attempt raising `"Quota exceeded for metric"` stops
the loop after one invocation with result `None`. -/
theorem call_gemini_retry_bound_and_quota_stop_witness :
    numInvokes (call_gemini genQuota "p" "d" true 2).2 = 0 + 1 ∧
    (call_gemini genQuota "p" "d" true 2).1 = none :=
  (call_gemini_retry_bound_and_quota_stop genQuota "p" "d" true 2).2 0
    (by decide) (by decide)

/-- C5: every string sent to the remote model by `call_gemini` is exactly
the prompt, the fixed separator, and the data, in that order. -/
theorem call_gemini_full_prompt_concatenation (gen : Nat → String → GenResult)
    (prompt data_to_process : String) (modelConfigured : Bool) (retry_count : Nat)
    (ev : Event)
    (hev : ev ∈ (call_gemini gen prompt data_to_process modelConfigured retry_count).2)
    (s : String) (hs : ev = Event.invoke s) :
    s = prompt ++ "\n\nHere is the text to process:\n\n" ++ data_to_process := by
  cases modelConfigured with
  | false => simp [call_gemini] at hev
  | true =>
    have hres := geminiAttempts_invoke_prompt gen (full_prompt_of prompt data_to_process)
      retry_count retry_count 0 ev (by simpa [call_gemini] using hev) s hs
    simpa [full_prompt_of] using hres

/-- C5 witness: with an always-successful oracle the single recorded
invocation carries the concatenated prompt. -/
theorem call_gemini_full_prompt_concatenation_witness :
    (Event.invoke ("P" ++ "\n\nHere is the text to process:\n\n" ++ "D"))
        ∈ (call_gemini genOk "P" "D" true 2).2 ∧
    ("P" ++ "\n\nHere is the text to process:\n\n" ++ "D" : String)
        = "P" ++ "\n\nHere is the text to process:\n\n" ++ "D" :=
  ⟨by decide,
   call_gemini_full_prompt_concatenation genOk "P" "D" true 2
     (Event.invoke ("P" ++ "\n\nHere is the text to process:\n\n" ++ "D"))
     (by decide) ("P" ++ "\n\nHere is the text to process:\n\n" ++ "D") rfl⟩

/-- C6 (counterexample): an execution in which attempt 0 fails with a
non-quota error and attempt 1 is made, yet the trace contains no sleep
effect at all — the source has no `time.sleep` between attempts. -/
theorem call_gemini_no_sleep_between_attempts_counterexample :
    numInvokes (call_gemini genFailTwice "p" "d" true 2).2 = 2 ∧
    quotaFailB (genFailTwice 0 (full_prompt_of "p" "d")) = false ∧
    numSleeps (call_gemini genFailTwice "p" "d" true 2).2 = 0 := by
  decide

/-- C6 (amended): `call_gemini` performs no sleep effect at all; a failed
non-fatal attempt is retried immediately. -/
theorem call_gemini_never_sleeps (gen : Nat → String → GenResult)
    (prompt data_to_process : String) (modelConfigured : Bool) (retry_count : Nat) :
    numSleeps (call_gemini gen prompt data_to_process modelConfigured retry_count).2 = 0 := by
  cases modelConfigured with
  | false => rfl
  | true =>
    simpa [call_gemini] using
      geminiAttempts_no_sleep gen (full_prompt_of prompt data_to_process)
        retry_count retry_count 0

/-- C9: `call_gemini` never raises; its result is exactly one of: the fixed
configuration-error string with an empty trace (zero invocations) when the
model is unconfigured, `None`, or the text of a successful attempt. -/
theorem call_gemini_total_result_cases (gen : Nat → String → GenResult)
    (prompt data_to_process : String) (retry_count : Nat) :
    (call_gemini gen prompt data_to_process false retry_count
        = (some "Error: Google Generative AI model is not configured.", [])) ∧
    ((call_gemini gen prompt data_to_process true retry_count).1 = none ∨
      ∃ k t, k < retry_count ∧
        gen k (full_prompt_of prompt data_to_process) = GenResult.success t ∧
        (call_gemini gen prompt data_to_process true retry_count).1 = some t) := by
  constructor
  · rfl
  · have hres := geminiAttempts_result_cases gen (full_prompt_of prompt data_to_process)
      retry_count retry_count 0
    simpa [call_gemini] using hres

/-- C3: for every input string on which `json.loads` fails,
`build_report_from_json` returns that input string unchanged. -/
theorem build_report_nonjson_passthrough (parse : String → Option JValue)
    (report_json_text : String) (h : parse report_json_text = none) :
    build_report_from_json parse report_json_text = Except.ok report_json_text := by
  simp [build_report_from_json, h]

/-- C3 witness: a parser rejecting everything passes `"hello"` through. -/
theorem build_report_nonjson_passthrough_witness :
    parseNone "hello" = none ∧
    build_report_from_json parseNone "hello" = Except.ok "hello" :=
  ⟨rfl, build_report_nonjson_passthrough parseNone "hello" rfl⟩

/-- `allStrings` distributes over list append as an optional zip of results. -/
theorem allStrings_append (x y : List JValue) :
    allStrings (x ++ y) =
      (allStrings x).bind (fun sx => (allStrings y).map (fun sy => sx ++ sy)) := by
  induction x with
  | nil => cases h : allStrings y <;> simp [allStrings, h]
  | cons v t ih =>
    cases v with
    | str s =>
      cases ht : allStrings t <;> cases hy : allStrings y <;>
        simp [allStrings, ih, ht, hy]
    | null => simp [allStrings]
    | bool b => simp [allStrings]
    | num n => simp [allStrings]
    | arr xs => simp [allStrings]
    | obj kvs => simp [allStrings]

/-- A successful `join` means every entry was a string and the result is
their intercalation. -/
theorem pyJoin_ok (sep : String) (l : List JValue) (r : String)
    (h : pyJoin sep l = Except.ok r) :
    ∃ sl, allStrings l = some sl ∧ r = String.intercalate sep sl := by
  unfold pyJoin at h
  cases hall : allStrings l with
  | none => rw [hall] at h; cases h
  | some sl => rw [hall] at h; cases h; exact ⟨sl, rfl, rfl⟩

/-- The string rendering of a successful `executive_summary` block: headed
by its heading when the key is present, empty otherwise. -/
theorem execSection_strings (kvs : List (String × JValue)) (b1 : List JValue)
    (s1 : List String) (hb : execSection (JValue.obj kvs) = Except.ok b1)
    (hs : allStrings b1 = some s1) :
    (hasKey "executive_summary" kvs = true ∧ s1.head? = some "### Executive Summary") ∨
    (hasKey "executive_summary" kvs = false ∧ s1 = []) := by
  unfold execSection at hb
  cases hk : hasKey "executive_summary" kvs with
  | false =>
    simp only [pyContains, hk] at hb
    cases hb
    simp only [allStrings, Option.some.injEq] at hs
    right
    exact ⟨rfl, hs.symm⟩
  | true =>
    simp only [pyContains, hk] at hb
    cases hg : pyGetItem "executive_summary" (JValue.obj kvs) with
    | error e => rw [hg] at hb; cases hb
    | ok v =>
      rw [hg] at hb
      cases hb
      left
      refine ⟨rfl, ?_⟩
      cases v <;> simp [allStrings] at hs
      rw [← hs]
      rfl

/-- The string rendering of a successful bullet-list block: headed by its
heading when the key is present, empty otherwise. -/
theorem listSection_strings (kvs : List (String × JValue)) (key heading : String)
    (b : List JValue) (s : List String)
    (hb : listSection (JValue.obj kvs) key heading = Except.ok b)
    (hs : allStrings b = some s) :
    (hasKey key kvs = true ∧ s.head? = some heading) ∨
    (hasKey key kvs = false ∧ s = []) := by
  unfold listSection at hb
  cases hk : hasKey key kvs with
  | false =>
    simp only [pyContains, hk] at hb
    cases hb
    simp only [allStrings, Option.some.injEq] at hs
    right
    exact ⟨rfl, hs.symm⟩
  | true =>
    simp only [pyContains, hk, pyGet] at hb
    cases hi : pyIter ((kvs.lookup key).getD (JValue.arr [])) with
    | error e => rw [hi] at hb; cases hb
    | ok items =>
      rw [hi] at hb
      cases hb
      left
      refine ⟨rfl, ?_⟩
      simp only [List.append_eq, List.nil_append, List.singleton_append, allStrings] at hs
      cases hrest : allStrings (items.map (fun it => JValue.str ("*" ++ pyStr it ++ "*")) ++ [JValue.str "\n"]) with
      | none => rw [hrest] at hs; cases hs
      | some sl => rw [hrest] at hs; cases hs; rfl

/-- C10: for every input string parsing as a JSON object, a report
produced by `build_report_from_json` is the newline-join of four blocks in
the fixed order executive_summary, key_metrics, strategic_developments,
risks_and_red_flags; each block starts with its section heading exactly
when the corresponding key is present (and is empty otherwise), and the
report is the empty string when none of the four keys is present. -/
theorem build_report_sections_order (parse : String → Option JValue)
    (s : String) (kvs : List (String × JValue)) (r : String)
    (h1 : parse s = some (JValue.obj kvs))
    (h2 : build_report_from_json parse s = Except.ok r) :
    ∃ e m sd rf : List String,
      r = String.intercalate "\n" (e ++ m ++ sd ++ rf) ∧
      ((hasKey "executive_summary" kvs = true ∧ e.head? = some "### Executive Summary") ∨
        (hasKey "executive_summary" kvs = false ∧ e = [])) ∧
      ((hasKey "key_metrics" kvs = true ∧ m.head? = some "**Key Metrics & Guidance**") ∨
        (hasKey "key_metrics" kvs = false ∧ m = [])) ∧
      ((hasKey "strategic_developments" kvs = true ∧ sd.head? = some "**Strategic Developments**") ∨
        (hasKey "strategic_developments" kvs = false ∧ sd = [])) ∧
      ((hasKey "risks_and_red_flags" kvs = true ∧ rf.head? = some "**Risks & Red Flags**") ∨
        (hasKey "risks_and_red_flags" kvs = false ∧ rf = [])) ∧
      ((hasKey "executive_summary" kvs = false ∧ hasKey "key_metrics" kvs = false ∧
        hasKey "strategic_developments" kvs = false ∧ hasKey "risks_and_red_flags" kvs = false) →
        r = "") := by
  simp only [build_report_from_json, h1] at h2
  cases hb1 : execSection (JValue.obj kvs) with
  | error er => rw [hb1] at h2; cases h2
  | ok b1 =>
  rw [hb1] at h2
  cases hb2 : listSection (JValue.obj kvs) "key_metrics" "**Key Metrics & Guidance**" with
  | error er => rw [hb2] at h2; cases h2
  | ok b2 =>
  rw [hb2] at h2
  cases hb3 : listSection (JValue.obj kvs) "strategic_developments" "**Strategic Developments**" with
  | error er => rw [hb3] at h2; cases h2
  | ok b3 =>
  rw [hb3] at h2
  cases hb4 : listSection (JValue.obj kvs) "risks_and_red_flags" "**Risks & Red Flags**" with
  | error er => rw [hb4] at h2; cases h2
  | ok b4 =>
  rw [hb4] at h2
  have hjoin : pyJoin "\n" (b1 ++ b2 ++ b3 ++ b4) = Except.ok r := h2
  obtain ⟨sl, hall, hr⟩ := pyJoin_ok _ _ _ hjoin
  rw [allStrings_append, allStrings_append, allStrings_append] at hall
  cases ha1 : allStrings b1 with
  | none => rw [ha1] at hall; cases hall
  | some s1 =>
  rw [ha1] at hall
  cases ha2 : allStrings b2 with
  | none => rw [ha2] at hall; cases hall
  | some s2 =>
  rw [ha2] at hall
  cases ha3 : allStrings b3 with
  | none => rw [ha3] at hall; cases hall
  | some s3 =>
  rw [ha3] at hall
  cases ha4 : allStrings b4 with
  | none => rw [ha4] at hall; cases hall
  | some s4 =>
  rw [ha4] at hall
  simp only [Option.bind_some, Option.map_some, Option.bind, Option.map,
    Option.some.injEq] at hall
  refine ⟨s1, s2, s3, s4, ?_, ?_, ?_, ?_, ?_, ?_⟩
  · rw [hr, ← hall]
  · exact execSection_strings kvs b1 s1 hb1 ha1
  · exact listSection_strings kvs "key_metrics" "**Key Metrics & Guidance**" b2 s2 hb2 ha2
  · exact listSection_strings kvs "strategic_developments" "**Strategic Developments**" b3 s3 hb3 ha3
  · exact listSection_strings kvs "risks_and_red_flags" "**Risks & Red Flags**" b4 s4 hb4 ha4
  · rintro ⟨hk1, hk2, hk3, hk4⟩
    have d1 := execSection_strings kvs b1 s1 hb1 ha1
    have d2 := listSection_strings kvs "key_metrics" "**Key Metrics & Guidance**" b2 s2 hb2 ha2
    have d3 := listSection_strings kvs "strategic_developments" "**Strategic Developments**" b3 s3 hb3 ha3
    have d4 := listSection_strings kvs "risks_and_red_flags" "**Risks & Red Flags**" b4 s4 hb4 ha4
    rcases d1 with ⟨ht, _⟩ | ⟨_, he1⟩
    · rw [hk1] at ht; cases ht
    rcases d2 with ⟨ht, _⟩ | ⟨_, he2⟩
    · rw [hk2] at ht; cases ht
    rcases d3 with ⟨ht, _⟩ | ⟨_, he3⟩
    · rw [hk3] at ht; cases ht
    rcases d4 with ⟨ht, _⟩ | ⟨_, he4⟩
    · rw [hk4] at ht; cases ht
    rw [hr, ← hall, he1, he2, he3, he4]
    rfl

/-- C4 (counterexample): a run of the pipeline that reaches the final
display step after exactly two remote stages — the code calls `call_gemini`
for the analyzer and the synthesizer only, not for three stages. -/
theorem pipeline_two_stage_counterexample :
    runPipeline parseNone genOk true (Except.ok "txt")
      = Except.ok ⟨[(ANALYZER_AGENT_PROMPT, "txt"), (SYNTHESIZER_AGENT_PROMPT, "ok")],
                   [], some "ok", true⟩ ∧
    Except.map (fun pr => (pr.stageCalls.length, pr.displayed))
        (runPipeline parseNone genOk true (Except.ok "txt"))
      = Except.ok (2, true) := by
  constructor
  · rfl
  · rfl

/-- C4 (amended): in every run that reaches the final display step, the
remote model is invoked for exactly two sequential stages: the analyzer
receives the extracted PDF text, and the synthesizer receives the
brace-sliced output of the analyzer. -/
theorem pipeline_success_two_stages (parse : String → Option JValue)
    (gen : Nat → String → GenResult) (pdf : Except String String)
    (pr : PipelineResult)
    (hrun : runPipeline parse gen true pdf = Except.ok pr)
    (hdisp : pr.displayed = true) :
    ∃ full_text t1,
      pdf = Except.ok full_text ∧
      (call_gemini gen ANALYZER_AGENT_PROMPT full_text true 2).1 = some t1 ∧
      pr.stageCalls = [(ANALYZER_AGENT_PROMPT, full_text),
                       (SYNTHESIZER_AGENT_PROMPT, clean_json_response t1)] := by
  cases pdf with
  | error e =>
    simp only [runPipeline] at hrun
    cases hrun
    cases hdisp
  | ok full_text =>
    simp only [runPipeline] at hrun
    cases hr1 : (call_gemini gen ANALYZER_AGENT_PROMPT full_text true 2).1 with
    | none =>
      rw [hr1] at hrun
      simp only [pyFalsy, if_true] at hrun
      cases hrun
      cases hdisp
    | some t1 =>
      rw [hr1] at hrun
      simp only [pyFalsy, Option.getD] at hrun
      by_cases ht1 : (t1 == "") = true
      · rw [if_pos ht1] at hrun
        cases hrun
        cases hdisp
      · rw [if_neg ht1] at hrun
        by_cases hclean : (clean_json_response t1 == "") = true
        · rw [if_pos hclean] at hrun
          cases hrun
          cases hdisp
        · rw [if_neg hclean] at hrun
          cases hr2 : (call_gemini gen SYNTHESIZER_AGENT_PROMPT (clean_json_response t1) true 2).1 with
          | none =>
            rw [hr2] at hrun
            simp only [if_true] at hrun
            cases hrun
            cases hdisp
          | some t2 =>
            rw [hr2] at hrun
            simp only [Option.getD] at hrun
            by_cases ht2 : (t2 == "") = true
            · rw [if_pos ht2] at hrun
              cases hrun
              cases hdisp
            · rw [if_neg ht2] at hrun
              by_cases hfin : (clean_json_response t2 == "") = true
              · rw [if_pos hfin] at hrun
                cases hrun
                cases hdisp
              · rw [if_neg hfin] at hrun
                cases hbuild : build_report_from_json parse (clean_json_response t2) with
                | error er =>
                  rw [hbuild] at hrun
                  cases hrun
                | ok rep =>
                  simp only [hbuild] at hrun
                  by_cases hrep : (rep == "") = true
                  · rw [if_pos hrep] at hrun
                    cases hrun
                    cases hdisp
                  · rw [if_neg hrep] at hrun
                    cases hrun
                    exact ⟨full_text, t1, rfl, hr1, rfl⟩

/-- C7: every failure of PDF extraction, of the analyzer stage, or of the
synthesizer stage reports an error message, produces no report, reaches no
display, and runs no later pipeline stage. -/
theorem pipeline_failures_halt :
    (∀ (parse : String → Option JValue) (gen : Nat → String → GenResult) (e : String),
      runPipeline parse gen true (Except.error e)
        = Except.ok ⟨[], ["Error reading PDF: " ++ e], none, false⟩) ∧
    (∀ (parse : String → Option JValue) (gen : Nat → String → GenResult) (full_text : String),
      pyFalsy (call_gemini gen ANALYZER_AGENT_PROMPT full_text true 2).1 = true →
      runPipeline parse gen true (Except.ok full_text)
        = Except.ok ⟨[(ANALYZER_AGENT_PROMPT, full_text)],
                     ["Analyzer Agent failed."], none, false⟩) ∧
    (∀ (parse : String → Option JValue) (gen : Nat → String → GenResult) (full_text t1 : String),
      (call_gemini gen ANALYZER_AGENT_PROMPT full_text true 2).1 = some t1 →
      (t1 == "") = false →
      (clean_json_response t1 == "") = false →
      pyFalsy (call_gemini gen SYNTHESIZER_AGENT_PROMPT (clean_json_response t1) true 2).1 = true →
      runPipeline parse gen true (Except.ok full_text)
        = Except.ok ⟨[(ANALYZER_AGENT_PROMPT, full_text),
                      (SYNTHESIZER_AGENT_PROMPT, clean_json_response t1)],
                     ["Synthesizer Agent failed."], none, false⟩) := by
  refine ⟨fun parse gen e => rfl, ?_, ?_⟩
  · intro parse gen full_text h
    simp only [runPipeline, h, if_true]
  · intro parse gen full_text t1 h1 ht1 hclean hsynth
    simp only [pyFalsy] at hsynth
    simp only [runPipeline, h1, Option.getD, pyFalsy, ht1, hclean, hsynth,
      Bool.false_eq_true, if_false, if_true]

/-- C4 witness: a concrete displayed run instantiating the two-stage
theorem. -/
theorem pipeline_success_two_stages_witness :
    (runPipeline parseNone genOk true (Except.ok "txt")
        = Except.ok (⟨[(ANALYZER_AGENT_PROMPT, "txt"), (SYNTHESIZER_AGENT_PROMPT, "ok")],
                      [], some "ok", true⟩ : PipelineResult)) ∧
    (⟨[(ANALYZER_AGENT_PROMPT, "txt"), (SYNTHESIZER_AGENT_PROMPT, "ok")],
      [], some "ok", true⟩ : PipelineResult).displayed = true ∧
    ∃ full_text t1,
      (Except.ok "txt" : Except String String) = Except.ok full_text ∧
      (call_gemini genOk ANALYZER_AGENT_PROMPT full_text true 2).1 = some t1 ∧
      (⟨[(ANALYZER_AGENT_PROMPT, "txt"), (SYNTHESIZER_AGENT_PROMPT, "ok")],
        [], some "ok", true⟩ : PipelineResult).stageCalls
        = [(ANALYZER_AGENT_PROMPT, full_text), (SYNTHESIZER_AGENT_PROMPT, clean_json_response t1)] :=
  ⟨rfl, rfl,
   pipeline_success_two_stages parseNone genOk (Except.ok "txt")
     ⟨[(ANALYZER_AGENT_PROMPT, "txt"), (SYNTHESIZER_AGENT_PROMPT, "ok")], [], some "ok", true⟩
     rfl rfl⟩

set_option maxRecDepth 100000 in
/-- C7 witness: concrete runs instantiating each of the three failure cases. -/
theorem pipeline_failures_halt_witness :
    (runPipeline parseNone genOk true (Except.error "io")
        = Except.ok ⟨[], ["Error reading PDF: " ++ "io"], none, false⟩) ∧
    (pyFalsy (call_gemini genFailTwice ANALYZER_AGENT_PROMPT "txt" true 2).1 = true ∧
      runPipeline parseNone genFailTwice true (Except.ok "txt")
        = Except.ok ⟨[(ANALYZER_AGENT_PROMPT, "txt")], ["Analyzer Agent failed."], none, false⟩) ∧
    ((call_gemini genAnalyzerOnly ANALYZER_AGENT_PROMPT "FTDATA" true 2).1 = some "x\x7ba\x7dy" ∧
      runPipeline parseNone genAnalyzerOnly true (Except.ok "FTDATA")
        = Except.ok ⟨[(ANALYZER_AGENT_PROMPT, "FTDATA"),
                      (SYNTHESIZER_AGENT_PROMPT, clean_json_response "x\x7ba\x7dy")],
                     ["Synthesizer Agent failed."], none, false⟩) :=
  ⟨pipeline_failures_halt.1 parseNone genOk "io",
   ⟨by decide,
    pipeline_failures_halt.2.1 parseNone genFailTwice "txt" (by decide)⟩,
   ⟨by decide,
    pipeline_failures_halt.2.2 parseNone genAnalyzerOnly "FTDATA" "x\x7ba\x7dy"
      (by decide) (by decide) (by decide) (by decide)⟩⟩

/-- C10 witness: a two-key object exercising the section-structure theorem. -/
theorem build_report_sections_order_witness :
    parseTwoKeys "\x7ba\x7d" = some (JValue.obj kvsTwoKeys) ∧
    build_report_from_json parseTwoKeys "\x7ba\x7d"
      = Except.ok "### Executive Summary\nS\n\n\n**Key Metrics & Guidance**\n*a*\n\n" ∧
    (∃ e m sd rf : List String,
      "### Executive Summary\nS\n\n\n**Key Metrics & Guidance**\n*a*\n\n"
          = String.intercalate "\n" (e ++ m ++ sd ++ rf) ∧
      ((hasKey "executive_summary" kvsTwoKeys = true ∧ e.head? = some "### Executive Summary") ∨
        (hasKey "executive_summary" kvsTwoKeys = false ∧ e = [])) ∧
      ((hasKey "key_metrics" kvsTwoKeys = true ∧ m.head? = some "**Key Metrics & Guidance**") ∨
        (hasKey "key_metrics" kvsTwoKeys = false ∧ m = [])) ∧
      ((hasKey "strategic_developments" kvsTwoKeys = true ∧ sd.head? = some "**Strategic Developments**") ∨
        (hasKey "strategic_developments" kvsTwoKeys = false ∧ sd = [])) ∧
      ((hasKey "risks_and_red_flags" kvsTwoKeys = true ∧ rf.head? = some "**Risks & Red Flags**") ∨
        (hasKey "risks_and_red_flags" kvsTwoKeys = false ∧ rf = [])) ∧
      ((hasKey "executive_summary" kvsTwoKeys = false ∧ hasKey "key_metrics" kvsTwoKeys = false ∧
        hasKey "strategic_developments" kvsTwoKeys = false ∧
        hasKey "risks_and_red_flags" kvsTwoKeys = false) →
        "### Executive Summary\nS\n\n\n**Key Metrics & Guidance**\n*a*\n\n" = "")) :=
  ⟨rfl, rfl,
   build_report_sections_order parseTwoKeys "\x7ba\x7d" kvsTwoKeys
     "### Executive Summary\nS\n\n\n**Key Metrics & Guidance**\n*a*\n\n" rfl rfl⟩
